import Mathlib

/-!
Shallow embedding of the cashflow-app market-signal dashboards.

The embedded code comes from two dashboard modules of the repository:

* the IBKR Options Assistant dashboard (the dashboard script stored in
  src/preptracker-app/src/screens/ClientsScreen.tsx: fetchAlerts,
  fetchStatus, fetchSummary, createAlertCard, formatSignalType), and
* the Institutional Flow Tracker dashboard (the second module of
  src/unnamed/part_012: CONFIG, fetchSignals, fetchStatus, fetchSummary,
  updateConnectionStatus, addSignal, renderSignals, createFlowCard,
  formatPremium, formatSignalType).

JavaScript numbers are modelled by `Rat`; all the embedded comparisons and
arithmetic stay exact on the rational values the properties mention, so the
rational embedding agrees with IEEE double evaluation at every input used
here. JavaScript object-literal lookup tables are modelled by association
lists, and fetch calls by explicit request values.
-/

namespace Cashflow

/-- HTTP method of a request issued by a dashboard module. -/
inductive HttpMethod where
  | GET
  | POST
deriving DecidableEq

/-- A single HTTP request: method plus the path of the endpoint hit.
Query parameters never change the endpoint or the method, so they are
not part of the model. -/
structure ApiRequest where
  method : HttpMethod
  path : String
deriving DecidableEq

/-- API base of the ClientsScreen dashboard script
(src/preptracker-app/src/screens/ClientsScreen.tsx, line 376). -/
def API_BASE : String := "/api"

/-- Flow-tracker configuration (src/unnamed/part_012, CONFIG), restricted
to the fields the embedded functions read. -/
structure FlowConfig where
  API_BASE : String
  MAX_SIGNALS : Nat

/-- The literal CONFIG object of the flow dashboard (src/unnamed/part_012,
lines 664 to 670). -/
def CONFIG : FlowConfig := { API_BASE := "/api", MAX_SIGNALS := 100 }

/-- Metrics block of a FlowSignal as read by the flow dashboard. -/
structure Metrics where
  premium : Rat
  contracts : Rat
  volume_ratio : Rat
deriving DecidableEq

/-- A FlowSignal as consumed by the flow dashboard, restricted to the
fields the embedded functions read. -/
structure FlowSignal where
  symbol : String
  direction : String
  signal_type : String
  metrics : Metrics
deriving DecidableEq

/-- Filter state of the flow dashboard (state.filters in
src/unnamed/part_012). -/
structure Filters where
  symbol : String
  direction : String
  signalType : String
  minPremium : Rat

/-- Confidence CSS class computed by createAlertCard
(src/preptracker-app/src/screens/ClientsScreen.tsx, lines 555 to 560):
the class starts at low, becomes high when the confidence is at least 75,
else medium when it is at least 50. -/
def confidenceClass (confidence : Rat) : String :=
  if confidence ≥ 75 then "high"
  else if confidence ≥ 50 then "medium"
  else "low"

/-- Spread-cell CSS class of createAlertCard
(src/preptracker-app/src/screens/ClientsScreen.tsx, line 643): the
text-warning class is added exactly when spread_pct is greater than 5. -/
def spreadClass (spread_pct : Rat) : String :=
  if spread_pct > 5 then "text-warning" else ""

/-- Volume-cell CSS class of createAlertCard
(src/preptracker-app/src/screens/ClientsScreen.tsx, line 621): the
highlight class is added exactly when volume_ratio is at least 3. -/
def alertVolumeClass (volume_ratio : Rat) : String :=
  if volume_ratio ≥ 3 then "highlight" else ""

/-- Volume-ratio metric CSS class of createFlowCard
(src/unnamed/part_012, line 973): the highlight class is added exactly
when metrics.volume_ratio is at least 3. -/
def flowVolumeClass (volume_ratio : Rat) : String :=
  if volume_ratio ≥ 3 then "highlight" else ""

/-- The addSignal handler of the flow dashboard (src/unnamed/part_012,
lines 850 to 864): the new signal is pushed onto the front of
state.signals with unshift, and when the length then exceeds
CONFIG.MAX_SIGNALS the list is cut back with slice(0, MAX_SIGNALS). -/
def addSignal (signal : FlowSignal) (signals : List FlowSignal) : List FlowSignal :=
  if (signal :: signals).length > CONFIG.MAX_SIGNALS then
    (signal :: signals).take CONFIG.MAX_SIGNALS
  else signal :: signals

/-- Symbol filter step of renderSignals (src/unnamed/part_012, lines 872
to 874): active when the symbol filter string is nonempty, compares
symbols after toUpperCase on both sides. -/
def filterSymbol (f : Filters) (l : List FlowSignal) : List FlowSignal :=
  if f.symbol ≠ "" then
    l.filter (fun s => s.symbol.toUpper == f.symbol.toUpper)
  else l

/-- Direction filter step of renderSignals (src/unnamed/part_012, lines
875 to 877): active when the direction filter string is nonempty, exact
string comparison. -/
def filterDirection (f : Filters) (l : List FlowSignal) : List FlowSignal :=
  if f.direction ≠ "" then l.filter (fun s => s.direction == f.direction) else l

/-- Signal-type filter step of renderSignals (src/unnamed/part_012, lines
878 to 880): active when the type filter string is nonempty, exact string
comparison. -/
def filterType (f : Filters) (l : List FlowSignal) : List FlowSignal :=
  if f.signalType ≠ "" then l.filter (fun s => s.signal_type == f.signalType) else l

/-- Premium filter step of renderSignals (src/unnamed/part_012, lines 881
to 883): active when minPremium is greater than 0, keeps signals whose
metrics.premium is at least minPremium. -/
def filterPremium (f : Filters) (l : List FlowSignal) : List FlowSignal :=
  if f.minPremium > 0 then
    l.filter (fun s => decide (s.metrics.premium ≥ f.minPremium))
  else l

/-- The filtering pipeline of renderSignals (src/unnamed/part_012, lines
869 to 883): the four conditional filter steps applied in source order to
state.signals. -/
def renderSignalsFiltered (f : Filters) (signals : List FlowSignal) : List FlowSignal :=
  filterPremium f (filterType f (filterDirection f (filterSymbol f signals)))

/-- The updateConnectionStatus function of the flow dashboard
(src/unnamed/part_012, lines 812 to 824): the text shown by the status
indicator as a function of state.isDemo and the connected argument. -/
def updateConnectionStatusText (isDemo : Bool) (connected : Bool) : String :=
  if connected then (if isDemo then "Demo Mode" else "Connected")
  else "Disconnected"

/-- The fetchStatus function of the flow dashboard (src/unnamed/part_012,
lines 777 to 792): on a successful response it stores demo_mode in
state.isDemo and calls updateConnectionStatus(connected OR demo_mode).
This is the resulting indicator text as a function of the two response
fields. -/
def fetchStatusText (connected : Bool) (demo_mode : Bool) : String :=
  updateConnectionStatusText demo_mode (connected || demo_mode)

/-- The updateConnectionStatus function of the ClientsScreen dashboard
(src/preptracker-app/src/screens/ClientsScreen.tsx, lines 485 to 499):
indicator text as a function of the connected argument; fetchStatus there
passes data.connected through unchanged. -/
def clientsStatusText (connected : Bool) : String :=
  if connected then "Connected (Paper)" else "Disconnected"

/-- The display-name table of formatSignalType in the flow dashboard
(src/unnamed/part_012, lines 1034 to 1045), in source order. -/
def flowSignalTypes : List (String × String) :=
  [("INSTITUTIONAL_FLOW", "Institutional Flow"),
   ("SWEEP", "Sweep"),
   ("BLOCK", "Block Trade"),
   ("DARK_POOL", "Dark Pool"),
   ("UNUSUAL_VOLUME", "Unusual Volume"),
   ("UNUSUAL_OI", "Unusual OI"),
   ("GOLDEN_SWEEP", "Golden Sweep")]

/-- The display-name table of formatSignalType in the ClientsScreen
dashboard (src/preptracker-app/src/screens/ClientsScreen.tsx, lines 730
to 738), in source order. -/
def clientsSignalTypes : List (String × String) :=
  [("unusual_volume", "📊 Vol"),
   ("oi_acceleration", "📈 OI"),
   ("iv_spike", "⚡ IV"),
   ("delta_momentum", "🎯 Delta")]

/-- A JavaScript value as produced by the formatSignalType lookup
expression: either a string, or a member inherited from Object.prototype
(a function, or the prototype object itself for the key named proto),
identified by its property name. -/
inductive JsValue where
  | str (s : String)
  | protoMember (name : String)
deriving DecidableEq

/-- The members every plain object literal inherits from Object.prototype
in a JavaScript runtime: a property read on an object literal falls
through to these when the key is not an own property. Every member is a
function except the accessor named proto, which yields the prototype
object; all of them are truthy. -/
def objectPrototypeKeys : List String :=
  ["constructor", "hasOwnProperty", "isPrototypeOf", "propertyIsEnumerable",
   "toLocaleString", "toString", "valueOf", "__defineGetter__",
   "__defineSetter__", "__lookupGetter__", "__lookupSetter__", "__proto__"]

/-- Property read on a JavaScript object literal backed by a string
table: an own property wins, otherwise the read falls through the
prototype chain to Object.prototype, otherwise the result is undefined,
modelled as none. -/
def jsIndex (tbl : List (String × String)) (key : String) : Option JsValue :=
  match tbl.lookup key with
  | some v => some (JsValue.str v)
  | none =>
    if key ∈ objectPrototypeKeys then some (JsValue.protoMember key)
    else none

/-- The JavaScript expression reading tbl at t and defaulting to t when
the result is falsy: undefined and the empty string fall back to the
input, any other string and every inherited Object.prototype member is
truthy and is returned as is. -/
def jsLookupOrSelf (tbl : List (String × String)) (t : String) : JsValue :=
  match jsIndex tbl t with
  | none => JsValue.str t
  | some (JsValue.str v) => if v = "" then JsValue.str t else JsValue.str v
  | some (JsValue.protoMember n) => JsValue.protoMember n

/-- formatSignalType of the flow dashboard (src/unnamed/part_012, lines
1034 to 1045): object-literal lookup with the input as fallback,
including the prototype-chain behaviour of the runtime. -/
def formatSignalTypeFlow (t : String) : JsValue :=
  jsLookupOrSelf flowSignalTypes t

/-- formatSignalType of the ClientsScreen dashboard
(src/preptracker-app/src/screens/ClientsScreen.tsx, lines 730 to 738):
object-literal lookup with the input as fallback, including the
prototype-chain behaviour of the runtime. -/
def formatSignalTypeClients (t : String) : JsValue :=
  jsLookupOrSelf clientsSignalTypes t

/-- Modelled from the spec: the eight-member signal_type enum of the
RawSignal data model (spec section 3). -/
def specRawSignalEnum : List String :=
  ["UNUSUAL_VOLUME", "OI_ACCELERATION", "IV_SPIKE", "DELTA_MOMENTUM",
   "SWEEP", "BLOCK", "DARK_POOL", "INSTITUTIONAL_FLOW"]

/-- Requests issued by fetchAlerts
(src/preptracker-app/src/screens/ClientsScreen.tsx, lines 405 to 443):
one fetch of API_BASE/alerts with no init object, hence a GET. -/
def fetchAlertsRequests : List ApiRequest :=
  [{ method := HttpMethod.GET, path := API_BASE ++ "/alerts" }]

/-- Requests issued by the ClientsScreen fetchStatus (lines 448 to 461):
one GET of API_BASE/status. -/
def clientsFetchStatusRequests : List ApiRequest :=
  [{ method := HttpMethod.GET, path := API_BASE ++ "/status" }]

/-- Requests issued by the ClientsScreen fetchSummary (lines 466 to 479):
one GET of API_BASE/summary. -/
def clientsFetchSummaryRequests : List ApiRequest :=
  [{ method := HttpMethod.GET, path := API_BASE ++ "/summary" }]

/-- Requests issued by fetchSignals (src/unnamed/part_012, lines 753 to
771): one GET of CONFIG.API_BASE/signals. -/
def fetchSignalsRequests : List ApiRequest :=
  [{ method := HttpMethod.GET, path := CONFIG.API_BASE ++ "/signals" }]

/-- Requests issued by the flow fetchStatus (src/unnamed/part_012, lines
777 to 792): one GET of CONFIG.API_BASE/status. -/
def flowFetchStatusRequests : List ApiRequest :=
  [{ method := HttpMethod.GET, path := CONFIG.API_BASE ++ "/status" }]

/-- Requests issued by the flow fetchSummary (src/unnamed/part_012, lines
798 to 809): one GET of CONFIG.API_BASE/summary. -/
def flowFetchSummaryRequests : List ApiRequest :=
  [{ method := HttpMethod.GET, path := CONFIG.API_BASE ++ "/summary" }]

/-- Every request issued by the four dashboard fetch functions named in
the safety claim, across both dashboards. -/
def dashboardRequests : List ApiRequest :=
  fetchAlertsRequests ++ clientsFetchStatusRequests
    ++ clientsFetchSummaryRequests ++ fetchSignalsRequests
    ++ flowFetchStatusRequests ++ flowFetchSummaryRequests

/-- The read endpoints of the engine API. -/
def readEndpoints : List String :=
  ["/api/alerts", "/api/status", "/api/summary", "/api/signals"]

/-- Incoming WebSocket messages understood by the flow dashboard handler
(src/unnamed/part_012, lines 739 to 745). -/
inductive WsMessage where
  | new_signal (signal : FlowSignal)
  | update_stats
  | other

/-- Effect model of handleWebSocketMessage (src/unnamed/part_012, lines
739 to 745): the handler only consumes the message, updating the local
signal log via addSignal; the only network activity it can trigger is the
fetchSummary refresh inside addSignal. It never sends on the socket and
issues no other request. -/
def handleWebSocketMessage (m : WsMessage) (signals : List FlowSignal) :
    List FlowSignal × List ApiRequest :=
  match m with
  | WsMessage.new_signal s => (addSignal s signals, flowFetchSummaryRequests)
  | WsMessage.update_stats => (signals, [])
  | WsMessage.other => (signals, [])

/-- Direction tag of a raw signal or fused event. -/
inductive Direction where
  | BULLISH
  | BEARISH
  | NEUTRAL
deriving DecidableEq

/-- Decision produced by the Decision Policy. -/
inductive Decision where
  | BUY
  | SELL
  | WAIT
deriving DecidableEq

/-- A raw detector signal, restricted to the fields the Decision Policy
and Classifier direction vote read. -/
structure RawSignal where
  signal_type : String
  strength : Rat
  direction : Direction

/-- Modelled from the spec: the decision_threshold configuration value of
spec sections 4.7 and 6, default 65. The engine implementation is not
under src; only its README (src/unnamed/part_010) restates the rule. -/
def decision_threshold : Rat := 65

/-- Modelled from the spec: the Decision Policy of spec section 4.7 (the
engine implementation is not under src). If the fused score reaches the
threshold and the dominant direction is BULLISH the decision is BUY, if
it reaches the threshold and the dominant direction is BEARISH it is
SELL, otherwise WAIT. -/
def decisionPolicy (score : Rat) (dominant : Direction) : Decision :=
  if decision_threshold ≤ score ∧ dominant = Direction.BULLISH then Decision.BUY
  else if decision_threshold ≤ score ∧ dominant = Direction.BEARISH then Decision.SELL
  else Decision.WAIT

/-- Modelled from the spec: the direction resolution of the Signal
Classifier (spec section 4.3): majority vote among the non-NEUTRAL raw
signals, a true tie resolves to NEUTRAL. -/
def dominantDirection (sigs : List RawSignal) : Direction :=
  if ((sigs.filter (fun s => s.direction == Direction.BEARISH)).length
      < (sigs.filter (fun s => s.direction == Direction.BULLISH)).length) then
    Direction.BULLISH
  else if ((sigs.filter (fun s => s.direction == Direction.BULLISH)).length
      < (sigs.filter (fun s => s.direction == Direction.BEARISH)).length) then
    Direction.BEARISH
  else Direction.NEUTRAL

/-- The toFixed method of JavaScript numbers, on the nonnegative values
the dashboard formats: round the value to d decimal places, ties rounding
up, then print with exactly d digits after the point and no point when d
is zero. -/
def jsToFixed (d : Nat) (x : Rat) : String :=
  let n : Nat := (⌊x * (10 : Rat) ^ d + 1 / 2⌋).toNat
  if d = 0 then toString n
  else
    let fracStr := toString (n % 10 ^ d)
    toString (n / 10 ^ d) ++ "."
      ++ String.mk (List.replicate (d - fracStr.length) '0') ++ fracStr

/-- formatPremium of the flow dashboard (src/unnamed/part_012, lines 1012
to 1016): millions with one decimal and an M suffix from one million up,
whole thousands with a K suffix from one thousand up, plain dollars
otherwise. -/
def formatPremium (value : Rat) : String :=
  if value ≥ 1000000 then "$" ++ jsToFixed 1 (value / 1000000) ++ "M"
  else if value ≥ 1000 then "$" ++ jsToFixed 0 (value / 1000) ++ "K"
  else "$" ++ jsToFixed 0 value

/-- The rendering the claim describes for formatPremium, with its exact
partition: the millions form exactly when the value is at least one
million, the thousands form exactly when it lies in [1000, 1000000), the
plain dollar form otherwise. -/
def claimPremiumForm (value : Rat) : String :=
  if value ≥ 1000000 then "$" ++ jsToFixed 1 (value / 1000000) ++ "M"
  else if value ≥ 1000 ∧ value < 1000000 then "$" ++ jsToFixed 0 (value / 1000) ++ "K"
  else "$" ++ jsToFixed 0 value

end Cashflow

namespace Cashflow

/-- C2: the conviction/confidence level shown on an alert card is a pure
step function of the score with boundaries exactly at 50 and 75: high iff
the score is at least 75, medium iff it is in [50, 75), low iff it is
below 50; a score of exactly 50 maps to medium and exactly 75 to high. -/
theorem confidenceClass_spec (c : Rat) :
    (confidenceClass c = "high" ↔ 75 ≤ c)
    ∧ (confidenceClass c = "medium" ↔ 50 ≤ c ∧ c < 75)
    ∧ (confidenceClass c = "low" ↔ c < 50)
    ∧ confidenceClass 50 = "medium" ∧ confidenceClass 75 = "high" := by
  refine ⟨?_, ?_, ?_, by decide, by decide⟩ <;>
    (simp only [confidenceClass]; split_ifs with h1 h2) <;>
    first
      | exact iff_of_true rfl (by linarith)
      | exact iff_of_true rfl (by constructor <;> linarith)
      | exact iff_of_false (by decide) (by intro h3; linarith)

/-- C7: the wide-spread warning mark on an alert card is applied iff the
spread percentage exceeds 5; in particular 3.7 and exactly 5 produce no
mark while 25 does. -/
theorem spreadClass_spec (p : Rat) :
    (spreadClass p = "text-warning" ↔ 5 < p)
    ∧ spreadClass (37/10) = "" ∧ spreadClass 25 = "text-warning"
    ∧ spreadClass 5 = "" := by
  refine ⟨?_, by simp only [spreadClass]; rw [if_neg (by norm_num)],
    by decide, by decide⟩
  simp only [spreadClass]
  split_ifs with h1
  · exact iff_of_true rfl h1
  · exact iff_of_false (by decide) h1

/-- C8: the unusual-volume highlight fires iff the volume ratio is at
least 3, in both the options-alert card and the flow card; exactly 3
triggers it, and any smaller ratio does not. -/
theorem volumeHighlight_spec (r : Rat) :
    (alertVolumeClass r = "highlight" ↔ 3 ≤ r)
    ∧ (flowVolumeClass r = "highlight" ↔ 3 ≤ r)
    ∧ alertVolumeClass 3 = "highlight" ∧ flowVolumeClass 3 = "highlight"
    ∧ alertVolumeClass (29/10) = "" ∧ flowVolumeClass (29/10) = "" := by
  refine ⟨?_, ?_, by decide, by decide,
    by simp only [alertVolumeClass]; rw [if_neg (by norm_num)],
    by simp only [flowVolumeClass]; rw [if_neg (by norm_num)]⟩ <;>
    (simp only [alertVolumeClass, flowVolumeClass]; split_ifs with h1) <;>
    first
      | exact iff_of_true rfl h1
      | exact iff_of_false (by decide) h1

/-- C4: addSignal puts the new signal at the front, the result never
exceeds MAX_SIGNALS entries, and the result is exactly the newest-first
prefix of the pushed list, so only the oldest entries are ever dropped. -/
theorem addSignal_spec (s : FlowSignal) (sigs : List FlowSignal) :
    (addSignal s sigs).head? = some s
    ∧ (addSignal s sigs).length ≤ CONFIG.MAX_SIGNALS
    ∧ addSignal s sigs = (s :: sigs).take CONFIG.MAX_SIGNALS := by
  simp only [addSignal]
  split_ifs with h
  · refine ⟨?_, ?_, rfl⟩
    · show ((s :: sigs).take (99 + 1)).head? = some s
      rw [List.take_succ_cons]
      rfl
    · rw [List.length_take]
      exact min_le_left _ _
  · push_neg at h
    exact ⟨rfl, h, (List.take_of_length_le h).symm⟩

lemma mem_filterSymbol {f : Filters} {l : List FlowSignal} {s : FlowSignal} :
    s ∈ filterSymbol f l ↔
      s ∈ l ∧ (f.symbol ≠ "" → s.symbol.toUpper = f.symbol.toUpper) := by
  simp only [filterSymbol]
  split_ifs with h <;> simp [List.mem_filter, h]

lemma mem_filterDirection {f : Filters} {l : List FlowSignal} {s : FlowSignal} :
    s ∈ filterDirection f l ↔
      s ∈ l ∧ (f.direction ≠ "" → s.direction = f.direction) := by
  simp only [filterDirection]
  split_ifs with h <;> simp [List.mem_filter, h]

lemma mem_filterType {f : Filters} {l : List FlowSignal} {s : FlowSignal} :
    s ∈ filterType f l ↔
      s ∈ l ∧ (f.signalType ≠ "" → s.signal_type = f.signalType) := by
  simp only [filterType]
  split_ifs with h <;> simp [List.mem_filter, h]

lemma mem_filterPremium {f : Filters} {l : List FlowSignal} {s : FlowSignal} :
    s ∈ filterPremium f l ↔
      s ∈ l ∧ (0 < f.minPremium → f.minPremium ≤ s.metrics.premium) := by
  simp only [filterPremium]
  split_ifs with h <;> simp [List.mem_filter, h]

/-- C5: the rendered alert feed contains exactly the signals of the log
that pass every active filter; an inactive filter (empty string, or a
minimum premium of zero) excludes nothing. -/
theorem renderSignals_filter_spec (f : Filters) (sigs : List FlowSignal)
    (s : FlowSignal) :
    s ∈ renderSignalsFiltered f sigs ↔
      s ∈ sigs
      ∧ (f.symbol ≠ "" → s.symbol.toUpper = f.symbol.toUpper)
      ∧ (f.direction ≠ "" → s.direction = f.direction)
      ∧ (f.signalType ≠ "" → s.signal_type = f.signalType)
      ∧ (0 < f.minPremium → f.minPremium ≤ s.metrics.premium) := by
  simp only [renderSignalsFiltered, mem_filterPremium, mem_filterType,
    mem_filterDirection, mem_filterSymbol]
  tauto

/-- C6 counterexample: with the flow dashboard in demo mode, a status
response reporting the ingestion source as not connected renders the
indicator as Demo Mode, not Disconnected. -/
theorem fetchStatus_demo_counterexample :
    fetchStatusText false true = "Demo Mode"
    ∧ fetchStatusText false true ≠ "Disconnected" := by decide

/-- C6 amended: the indicator shows Disconnected exactly when the status
response reports not connected and demo mode off; when demo mode is on a
disconnected source renders as Demo Mode instead. The ClientsScreen
dashboard, which has no demo mode, shows Disconnected exactly when the
response reports not connected. -/
theorem fetchStatus_disconnected_amended (c d : Bool) :
    (fetchStatusText c d = "Disconnected" ↔ c = false ∧ d = false)
    ∧ (fetchStatusText false true = "Demo Mode")
    ∧ (clientsStatusText c = "Disconnected" ↔ c = false) := by
  cases c <;> cases d <;> decide

lemma lookup_eq_none_of_not_mem_keys {l : List (String × String)} {a : String}
    (h : a ∉ l.map Prod.fst) : l.lookup a = none := by
  induction l with
  | nil => rfl
  | cons p tl ih =>
    obtain ⟨k, b⟩ := p
    simp only [List.map_cons, List.mem_cons] at h
    push_neg at h
    rw [List.lookup_cons]
    have hk : (a == k) = false := beq_eq_false_iff_ne.mpr h.1
    rw [hk]
    exact ih h.2

/-- C9 counterexample: applied to the unknown type string toString, the
flow formatSignalType does not return the input unchanged: the object
read hits the inherited, truthy Object.prototype toString function and
returns that member instead of the input string. The ClientsScreen
variant misbehaves the same way on constructor. -/
theorem formatSignalType_proto_counterexample :
    formatSignalTypeFlow "toString" = JsValue.protoMember "toString"
    ∧ formatSignalTypeFlow "toString" ≠ JsValue.str "toString"
    ∧ formatSignalTypeClients "constructor" = JsValue.protoMember "constructor"
    ∧ formatSignalTypeClients "constructor" ≠ JsValue.str "constructor" := by
  decide

/-- C9 amended: both formatSignalType functions map each known key to its
fixed display name, return any other string that is not an
Object.prototype member name unchanged, and return the truthy inherited
Object.prototype member, not the input, when the unknown input is one of
those member names; the flow table knows GOLDEN_SWEEP and UNUSUAL_OI,
neither of which is a member of the eight-member RawSignal enum of the
spec. -/
theorem formatSignalType_amended (t : String) :
    (∀ p ∈ flowSignalTypes, formatSignalTypeFlow p.1 = JsValue.str p.2)
    ∧ (∀ p ∈ clientsSignalTypes, formatSignalTypeClients p.1 = JsValue.str p.2)
    ∧ (t ∉ flowSignalTypes.map Prod.fst → t ∉ objectPrototypeKeys →
        formatSignalTypeFlow t = JsValue.str t)
    ∧ (t ∉ clientsSignalTypes.map Prod.fst → t ∉ objectPrototypeKeys →
        formatSignalTypeClients t = JsValue.str t)
    ∧ (t ∉ flowSignalTypes.map Prod.fst → t ∈ objectPrototypeKeys →
        formatSignalTypeFlow t = JsValue.protoMember t)
    ∧ (t ∉ clientsSignalTypes.map Prod.fst → t ∈ objectPrototypeKeys →
        formatSignalTypeClients t = JsValue.protoMember t)
    ∧ "GOLDEN_SWEEP" ∈ flowSignalTypes.map Prod.fst
    ∧ "UNUSUAL_OI" ∈ flowSignalTypes.map Prod.fst
    ∧ "GOLDEN_SWEEP" ∉ specRawSignalEnum
    ∧ "UNUSUAL_OI" ∉ specRawSignalEnum := by
  refine ⟨by decide, by decide, ?_, ?_, ?_, ?_,
    by decide, by decide, by decide, by decide⟩ <;>
  · intro h1 h2
    simp [formatSignalTypeFlow, formatSignalTypeClients, jsLookupOrSelf,
      jsIndex, lookup_eq_none_of_not_mem_keys h1, h2]

/-- C9 witness: concrete instances of the amended theorem: an unknown
plain type string passes through both functions unchanged, and the
prototype-member name valueOf is intercepted by the inherited member. -/
theorem formatSignalType_amended_witness :
    formatSignalTypeFlow "SOME_OTHER_TYPE" = JsValue.str "SOME_OTHER_TYPE"
    ∧ formatSignalTypeClients "SOME_OTHER_TYPE" = JsValue.str "SOME_OTHER_TYPE"
    ∧ formatSignalTypeFlow "valueOf" = JsValue.protoMember "valueOf" :=
  ⟨(formatSignalType_amended "SOME_OTHER_TYPE").2.2.1 (by decide) (by decide),
   (formatSignalType_amended "SOME_OTHER_TYPE").2.2.2.1 (by decide) (by decide),
   (formatSignalType_amended "valueOf").2.2.2.2.1 (by decide) (by decide)⟩

/-- C1: every HTTP request issued by the four dashboard fetch functions is
a GET to one of the four read endpoints, and the WebSocket handler, for
every message and every prior log, can only trigger such requests; no
request of these modules carries any other method or path, so no
order-submitting, order-modifying or order-canceling call is reachable. -/
theorem dashboard_read_only :
    (∀ r ∈ dashboardRequests, r.method = HttpMethod.GET ∧ r.path ∈ readEndpoints)
    ∧ (∀ (m : WsMessage) (sigs : List FlowSignal),
        ∀ r ∈ (handleWebSocketMessage m sigs).2,
          r.method = HttpMethod.GET ∧ r.path ∈ readEndpoints) := by
  constructor
  · decide
  · intro m sigs r hr
    cases m with
    | new_signal s =>
      simp only [handleWebSocketMessage] at hr
      have : r = { method := HttpMethod.GET, path := CONFIG.API_BASE ++ "/summary" } := by
        simpa [flowFetchSummaryRequests] using hr
      subst this
      decide
    | update_stats => simp [handleWebSocketMessage] at hr
    | other => simp [handleWebSocketMessage] at hr

/-- C1 witness: the alerts request of the ClientsScreen dashboard is a GET
to a read endpoint. -/
theorem dashboard_read_only_witness :
    ({ method := HttpMethod.GET, path := "/api/alerts" } : ApiRequest).method
        = HttpMethod.GET
    ∧ ({ method := HttpMethod.GET, path := "/api/alerts" } : ApiRequest).path
        ∈ readEndpoints :=
  dashboard_read_only.1 { method := HttpMethod.GET, path := "/api/alerts" }
    (by decide)

/-- C3: the Decision Policy yields BUY exactly when the score reaches 65
with dominant direction BULLISH, SELL exactly when it reaches 65 with
dominant direction BEARISH, and WAIT in every other case; with zero raw
signals the dominant direction resolves to NEUTRAL and the decision is
WAIT, and a NEUTRAL dominant direction always yields WAIT. -/
theorem decisionPolicy_spec (score : Rat) (dir : Direction) :
    (decisionPolicy score dir = Decision.BUY ↔ 65 ≤ score ∧ dir = Direction.BULLISH)
    ∧ (decisionPolicy score dir = Decision.SELL ↔ 65 ≤ score ∧ dir = Direction.BEARISH)
    ∧ (decisionPolicy score dir = Decision.WAIT ↔
        ¬(65 ≤ score ∧ dir ≠ Direction.NEUTRAL))
    ∧ decisionPolicy score (dominantDirection []) = Decision.WAIT
    ∧ (dir = Direction.NEUTRAL → decisionPolicy score dir = Decision.WAIT) := by
  have hdom : dominantDirection [] = Direction.NEUTRAL := rfl
  rw [hdom]
  cases dir <;>
    simp [decisionPolicy, decision_threshold] <;>
    split_ifs <;>
    simp_all

/-- C3 witness: at score 70 with a NEUTRAL dominant direction the policy
yields WAIT. -/
theorem decisionPolicy_spec_witness :
    decisionPolicy 70 Direction.NEUTRAL = Decision.WAIT :=
  (decisionPolicy_spec 70 Direction.NEUTRAL).2.2.2.2 rfl

lemma jsToFixed_zero_one : jsToFixed 0 1 = "1" := by
  have hf : ⌊(1 : Rat) * (10 : Rat) ^ (0 : Nat) + 1 / 2⌋ = (1 : Int) := by
    rw [Int.floor_eq_iff]
    norm_num
  simp only [jsToFixed, hf]
  rfl

lemma jsToFixed_one_one : jsToFixed 1 1 = "1.0" := by
  have hf : ⌊(1 : Rat) * (10 : Rat) ^ (1 : Nat) + 1 / 2⌋ = (10 : Int) := by
    rw [Int.floor_eq_iff]
    norm_num
  simp only [jsToFixed, hf]
  rfl

/-- C10: formatPremium realises exactly the claimed partition of its
domain: the millions form with one decimal and an M suffix iff the value
is at least one million, the thousands K form iff it lies in
[1000, 1000000), the plain dollar form otherwise; the boundary values
render as one K and one point zero M. -/
theorem formatPremium_spec (v : Rat) :
    formatPremium v = claimPremiumForm v
    ∧ formatPremium 1000 = "$1K"
    ∧ formatPremium 1000000 = "$1.0M" := by
  refine ⟨?_, ?_, ?_⟩
  · simp only [formatPremium, claimPremiumForm]
    by_cases h1 : v ≥ 1000000
    · rw [if_pos h1, if_pos h1]
    · rw [if_neg h1, if_neg h1]
      by_cases h2 : v ≥ 1000
      · have h3 : v ≥ 1000 ∧ v < 1000000 := ⟨h2, by push_neg at h1; exact h1⟩
        rw [if_pos h2, if_pos h3]
      · have h3 : ¬(v ≥ 1000 ∧ v < 1000000) := fun hc => h2 hc.1
        rw [if_neg h2, if_neg h3]
  · have h1 : ¬ ((1000 : Rat) ≥ 1000000) := by norm_num
    have h2 : (1000 : Rat) ≥ 1000 := le_refl _
    have hd : (1000 : Rat) / 1000 = 1 := by norm_num
    simp only [formatPremium, if_neg h1, if_pos h2, hd, jsToFixed_zero_one]
    rfl
  · have h1 : (1000000 : Rat) ≥ 1000000 := le_refl _
    have hd : (1000000 : Rat) / 1000000 = 1 := by norm_num
    simp only [formatPremium, if_pos h1, hd, jsToFixed_one_one]
    rfl

end Cashflow
